import Mathlib

/-!
Shallow embedding of the client-side interaction layer of a single-page
portfolio site (`script.js`): the persisted light/dark theme controller and
the desktop selection/carousel engine with its mobile modal fallback,
together with proofs of the specification claims about them.

DOM elements are modelled by the attributes and classes the script reads or
writes; timers are modelled by explicit handle state; asynchronous
callbacks (the carousel interval tick, the fade-switch timeout) are
modelled as explicit events of a step relation on the engine state.
-/

namespace Portfolio

/-- Dark theme value (`THEME_DARK` in the source). -/
def THEME_DARK : String := "dark"

/-- Light theme value (`THEME_LIGHT` in the source). -/
def THEME_LIGHT : String := "light"

/-- JavaScript truthiness of a nullable string (attribute values,
`getItem` results): `null` and the empty string are falsy. -/
def attrTruthy : Option String → Bool
  | none => false
  | some s => s != ""

/-- Environment the theme functions read: the outcome of reading the stored
preference from the persistent store (which may throw), and the state of the
system dark-mode media query. -/
structure ThemeEnv where
  storedRead : Except Unit (Option String)
  matchMediaAvailable : Bool
  prefersDark : Bool

/-- `getSystemThemePreference` from the source: dark exactly when
`window.matchMedia` exists and the dark media query matches. -/
def getSystemThemePreference (env : ThemeEnv) : String :=
  if env.matchMediaAvailable && env.prefersDark then THEME_DARK else THEME_LIGHT

/-- `getStoredThemePreference` from the source: a store read that throws is
caught and becomes `null`. -/
def getStoredThemePreference (env : ThemeEnv) : Option String :=
  match env.storedRead with
  | Except.error _ => none
  | Except.ok v => v

/-- `getCurrentTheme` from the source: the stored preference when truthy,
otherwise the system preference. -/
def getCurrentTheme (env : ThemeEnv) : String :=
  match getStoredThemePreference env with
  | some s => if s = "" then getSystemThemePreference env else s
  | none => getSystemThemePreference env

/-- The document-level state the theme controller touches: the `data-theme`
attribute and the transient `data-theme-transitioning` marker. -/
structure DocState where
  dataTheme : Option String
  dataThemeTransitioning : Bool
deriving DecidableEq

/-- `applyTheme` from the source: sets the document `data-theme` marker to
dark for the dark theme and removes it otherwise. -/
def applyTheme (theme : String) (d : DocState) : DocState :=
  if theme = THEME_DARK then { d with dataTheme := some THEME_DARK }
  else { d with dataTheme := none }

/-- C9: `applyTheme` is idempotent: for every theme value and every starting
document state, applying the same theme twice in succession yields a
document state identical to applying it once. -/
theorem applyTheme_idempotent (theme : String) (d : DocState) :
    applyTheme theme (applyTheme theme d) = applyTheme theme d := by
  by_cases h : theme = THEME_DARK <;> simp [applyTheme, h]

/-- C8: for every store state allowed by the spec (absent, `"dark"`,
`"light"`, or a throwing read) and every system preference,
`getCurrentTheme` returns the stored value when present and readable,
otherwise dark exactly when the dark media query is available and matches,
otherwise light; and a throwing store read yields the same result as an
absent value (the error never propagates). -/
theorem getCurrentTheme_spec (env : ThemeEnv) :
    (∀ v, env.storedRead = Except.ok (some v) →
      (v = THEME_DARK ∨ v = THEME_LIGHT) → getCurrentTheme env = v) ∧
    ((env.storedRead = Except.ok none ∨ env.storedRead = Except.error ()) →
      getCurrentTheme env =
        (if env.matchMediaAvailable && env.prefersDark then THEME_DARK else THEME_LIGHT)) ∧
    getCurrentTheme { env with storedRead := Except.error () } =
      getCurrentTheme { env with storedRead := Except.ok none } := by
  refine ⟨?_, ?_, ?_⟩
  · intro v hv hval
    rcases hval with h | h <;>
      simp [getCurrentTheme, getStoredThemePreference, hv, h, THEME_DARK, THEME_LIGHT]
  · intro h
    rcases h with h | h <;>
      simp [getCurrentTheme, getStoredThemePreference, getSystemThemePreference, h]
  · simp [getCurrentTheme, getStoredThemePreference, getSystemThemePreference]

/-- Witness for C8 at concrete inputs: with stored dark the stored value
wins, and with an absent stored value and a matching dark query the system
preference dark is returned. -/
theorem getCurrentTheme_spec_witness :
    getCurrentTheme ⟨Except.ok (some "dark"), true, false⟩ = "dark" ∧
    getCurrentTheme ⟨Except.ok none, true, true⟩ = "dark" := by
  constructor
  · exact (getCurrentTheme_spec ⟨Except.ok (some "dark"), true, false⟩).1 "dark" rfl
      (Or.inl rfl)
  · have h := (getCurrentTheme_spec ⟨Except.ok none, true, true⟩).2.1 (Or.inl rfl)
    simpa [THEME_DARK] using h

/-- A selectable entry element: its `data-image` attribute and whether it
currently carries the `selected` class. -/
structure Entry where
  image : Option String
  selected : Bool
deriving DecidableEq

/-- The desktop showcase element: its `data-selected` attribute, whether its
`.showcase-image-wrapper` child exists, whether that wrapper currently has
the `fading` class, and a scheduled fade-switch timeout
(image to swap in, delay in milliseconds). -/
structure Showcase where
  dataSelected : Option String
  wrapperPresent : Bool
  fading : Bool
  pendingSwap : Option (String × Nat)
deriving DecidableEq

/-- The module-level state of the selection/carousel engine together with
the DOM pieces the engine reads and writes.  `mobileShowcase` is `none` when
the `.mobile-showcase` element is absent and `some sel` when it is present
with `data-selected` value `sel`.  `liveTimers` records the interval timers
currently alive in the scheduler; `carouselIntervalId` is the source's
module variable holding the last created interval's id. -/
structure EngineState where
  width : Nat
  entries : List Entry
  showcase : Option Showcase
  mobileShowcase : Option (Option String)
  modalPresent : Bool
  modalActive : Bool
  bodyScrollLocked : Bool
  progressOuterPresent : Bool
  progressInnerPresent : Bool
  progressRunning : Bool
  progressPaused : Bool
  carouselIntervalId : Option Nat
  liveTimers : List Nat
  nextTimerId : Nat
  carouselPaused : Bool
  wasMobile : Bool
deriving DecidableEq

/-- `CAROUSEL_INTERVAL` from the source: carousel cycle in milliseconds. -/
def CAROUSEL_INTERVAL : Nat := 10000

/-- The `setTimeout` delay in `updateImageVisibility` from the source: the
image is swapped this many milliseconds into the fade switch. -/
def FADE_SWAP_MS : Nat := 250

/-- Modelled from the spec: the CSS transition durations of the showcase
fade (the fade-out while the wrapper carries the `fading` class and the
fade-back-in after it is removed) live in the stylesheet, which is not under
`src/`; the spec fixes the fade-switch total at 500 ms, 250 ms per half. -/
def CSS_FADE_HALF_MS : Nat := 250

/-- Total duration of a fade switch: the swap delay followed by the
fade-in half. -/
def fadeTotalMs : Nat := FADE_SWAP_MS + CSS_FADE_HALF_MS

/-- `isMobile` from the source: `window.innerWidth <= 768`. -/
def isMobile (width : Nat) : Bool := width ≤ 768

/-- `entries.forEach(e => e.classList.remove('selected'))`. -/
def clearSelected (entries : List Entry) : List Entry :=
  entries.map (fun e => { e with selected := false })

/-- `entries[j].classList.add('selected')`: adds the `selected` class to the
entry at index `j`, leaving the others as they are. -/
def setSelectedAt : List Entry → Nat → List Entry
  | [], _ => []
  | e :: t, 0 => { e with selected := true } :: t
  | e :: t, j + 1 => e :: setSelectedAt t j

/-- The index scan in the carousel tick:
`let currentIndex = -1; entries.forEach((entry, index) => { if selected then
currentIndex = index })`, so the result is the last selected index, or `-1`
when no entry is selected. -/
def findSelectedIndex (entries : List Entry) : Int :=
  entries.enum.foldl (fun acc p => if p.2.selected then (p.1 : Int) else acc) (-1)

/-- `document.querySelector('.entry.selectable[data-image="' + img + '"]')`:
index of the first entry whose `data-image` equals `img`. -/
def findEntryIdxByImage (entries : List Entry) (img : String) : Option Nat :=
  entries.findIdx? (fun e => e.image == some img)

/-- `document.querySelector('.entry.selectable.selected')`: the first entry
carrying the `selected` class. -/
def findFirstSelected (entries : List Entry) : Option Entry :=
  entries.find? (fun e => e.selected)

/-- `openMobileModal` from the source: requires the modal and the mobile
showcase elements; sets the mobile showcase's selected image when the id is
truthy, then shows the overlay and locks background scroll. -/
def openMobileModal (s : EngineState) (imageId : Option String) : EngineState :=
  if !s.modalPresent then s
  else
    match s.mobileShowcase with
    | none => s
    | some _ =>
      let s1 := if attrTruthy imageId then { s with mobileShowcase := some imageId } else s
      { s1 with modalActive := true, bodyScrollLocked := true }

/-- `closeMobileModal` from the source. -/
def closeMobileModal (s : EngineState) : EngineState :=
  if !s.modalPresent then s
  else { s with modalActive := false, bodyScrollLocked := false }

/-- `updateImageVisibility` from the source: no-op without a showcase, a
truthy image id and the image wrapper; with `skipTransition` the
`data-selected` attribute is set immediately; otherwise the wrapper starts
fading and a timeout is scheduled to swap the image `FADE_SWAP_MS` ms
later. -/
def updateImageVisibility (s : EngineState) (imageId : Option String)
    (skipTransition : Bool) : EngineState :=
  match s.showcase, imageId with
  | none, _ => s
  | some _, none => s
  | some sc, some img =>
    if img = "" then s
    else if !sc.wrapperPresent then s
    else if skipTransition then
      { s with showcase := some { sc with dataSelected := some img } }
    else
      { s with showcase := some { sc with fading := true, pendingSwap := some (img, FADE_SWAP_MS) } }

/-- The scheduled fade-switch timeout firing: sets `data-selected` to the
pending image and removes the `fading` class. -/
def fadeTimeoutFire (s : EngineState) : EngineState :=
  match s.showcase with
  | none => s
  | some sc =>
    match sc.pendingSwap with
    | none => s
    | some (img, _) =>
      { s with showcase := some { sc with dataSelected := some img, fading := false, pendingSwap := none } }

/-- `startProgressBar` from the source: requires the progress container and
the inner bar; resets and then restarts the 0 percent to 100 percent
animation, leaving the container in the running state. -/
def startProgressBar (s : EngineState) : EngineState :=
  if !s.progressOuterPresent then s
  else if !s.progressInnerPresent then s
  else { s with progressRunning := true, progressPaused := false }

/-- `pauseProgressBar` from the source: when the progress container exists,
swaps its running class for the paused class. -/
def pauseProgressBar (s : EngineState) : EngineState :=
  if s.progressOuterPresent then { s with progressRunning := false, progressPaused := true }
  else s

/-- `stopCarousel` from the source: clears the interval when one is
recorded and nulls the handle. -/
def stopCarousel (s : EngineState) : EngineState :=
  match s.carouselIntervalId with
  | none => s
  | some tid => { s with carouselIntervalId := none, liveTimers := s.liveTimers.erase tid }

/-- The body of the carousel interval callback from `startCarousel`: a tick
on mobile or while user-paused stops the carousel and does nothing else;
otherwise it scans for the selected index, advances cyclically, runs the
fade switch to the next entry's image when that image id is truthy, and
restarts the progress bar. -/
def carouselTick (s : EngineState) : EngineState :=
  if isMobile s.width || s.carouselPaused then stopCarousel s
  else
    let currentIndex := findSelectedIndex s.entries
    let nextIndex := ((currentIndex + 1) % (s.entries.length : Int)).toNat
    let nextImage := (s.entries.get? nextIndex).bind Entry.image
    let s1 := { s with entries := setSelectedAt (clearSelected s.entries) nextIndex }
    let s2 := if attrTruthy nextImage then updateImageVisibility s1 nextImage false else s1
    startProgressBar s2

/-- `startCarousel` from the source: returns immediately on mobile, with an
empty entry list, without a showcase, or while user-paused; otherwise clears
any existing interval, starts the progress bar and installs a fresh interval
timer. -/
def startCarousel (s : EngineState) : EngineState :=
  if isMobile s.width || s.entries.isEmpty || s.showcase.isNone || s.carouselPaused then s
  else
    let s1 := stopCarousel s
    let s2 := startProgressBar s1
    { s2 with
      carouselIntervalId := some s2.nextTimerId
      liveTimers := s2.nextTimerId :: s2.liveTimers
      nextTimerId := s2.nextTimerId + 1 }

/-- `pauseCarousel` from the source: marks the user pause, clears the
interval and pauses the progress bar. -/
def pauseCarousel (s : EngineState) : EngineState :=
  pauseProgressBar (stopCarousel { s with carouselPaused := true })

/-- `selectEntry(entry, isUserAction)` from the source, addressed by entry
index: on mobile it opens the modal on the entry's image when truthy; on
desktop it moves the `selected` class to the entry, runs the fade switch
when the image id is truthy, and on a user action pauses the carousel. -/
def selectEntry (s : EngineState) (i : Nat) (isUserAction : Bool) : EngineState :=
  match s.entries.get? i with
  | none => s
  | some entry =>
    if isMobile s.width then
      if attrTruthy entry.image then openMobileModal s entry.image else s
    else
      let s1 := { s with entries := setSelectedAt (clearSelected s.entries) i }
      let s2 := if attrTruthy entry.image then updateImageVisibility s1 entry.image false else s1
      if isUserAction then pauseCarousel s2 else s2

/-- The mobile-to-desktop part of `handleResize` that runs while the modal
is active: reads the modal's displayed image, closes the modal, and when the
image id is truthy re-seats the `selected` class on the first entry mapped
to that image and sets the showcase image immediately (skipTransition). -/
def carryModalSelectionToDesktop (s : EngineState) : EngineState :=
  let currentImageId :=
    match s.mobileShowcase with
    | none => none
    | some sel => sel
  let s1 := closeMobileModal s
  match currentImageId with
  | none => s1
  | some img =>
    if img = "" then s1
    else
      let s2 := { s1 with entries := clearSelected s1.entries }
      let s3 :=
        match findEntryIdxByImage s2.entries img with
        | some j => { s2 with entries := setSelectedAt s2.entries j }
        | none => s2
      updateImageVisibility s3 (some img) true

/-- The mobile-to-desktop branch of `handleResize`: carries the modal
selection over when the modal is open, then clears the user-pause flag and
starts the carousel. -/
def resizeToDesktopBranch (s : EngineState) : EngineState :=
  let s1 := if s.modalPresent && s.modalActive then carryModalSelectionToDesktop s else s
  startCarousel { s1 with carouselPaused := false }

/-- The desktop-to-mobile branch of `handleResize`: stops the carousel and
the progress indicator, then seeds the mobile showcase with the image of the
currently selected desktop entry when both exist and the image id is
truthy.  The modal is not touched. -/
def resizeToMobileBranch (s : EngineState) : EngineState :=
  let s1 := pauseProgressBar (stopCarousel s)
  match findFirstSelected s1.entries with
  | none => s1
  | some e =>
    match e.image with
    | none => s1
    | some img =>
      if img = "" then s1
      else
        match s1.mobileShowcase with
        | none => s1
        | some _ => { s1 with mobileShowcase := some (some img) }

/-- `handleResize` from the source, given the new viewport width: runs the
mobile-to-desktop branch or the desktop-to-mobile branch according to the
tracked previous mode, then records the new mode. -/
def handleResize (s0 : EngineState) (w : Nat) : EngineState :=
  let s := { s0 with width := w }
  let nowMobile := isMobile w
  let s := if s.wasMobile && !nowMobile then resizeToDesktopBranch s else s
  let s := if !s.wasMobile && nowMobile then resizeToMobileBranch s else s
  { s with wasMobile := nowMobile }

/-- The externally delivered happenings that can mutate the engine state:
an interval tick (a no-op when no timer is alive), an entry selection, a
direct `startCarousel` call, a resize to a new width, and a scheduled
fade-switch timeout firing. -/
inductive Event where
  | tick
  | select (i : Nat) (isUserAction : Bool)
  | callStart
  | resize (w : Nat)
  | fadeFire
deriving DecidableEq

/-- One step of the event-driven engine. -/
def step (e : Event) (s : EngineState) : EngineState :=
  match e with
  | Event.tick => if s.carouselIntervalId.isSome then carouselTick s else s
  | Event.select i u => selectEntry s i u
  | Event.callStart => startCarousel s
  | Event.resize w => handleResize s w
  | Event.fadeFire => fadeTimeoutFire s

/-- Exactly the entry at index `i` carries the `selected` class. -/
def onlySelectedAt (entries : List Entry) (i : Nat) : Prop :=
  ∀ j (hj : j < entries.length), (entries.get ⟨j, hj⟩).selected = decide (j = i)

instance (entries : List Entry) (i : Nat) : Decidable (onlySelectedAt entries i) :=
  inferInstanceAs
    (Decidable (∀ j (hj : j < entries.length), (entries.get ⟨j, hj⟩).selected = decide (j = i)))

/-- A live interval timer exists only in desktop mode, only while not
user-paused, and only with a non-empty entry list. -/
def runningOnlyWhenAllowed (s : EngineState) : Prop :=
  s.carouselIntervalId.isSome = true →
    isMobile s.width = false ∧ s.carouselPaused = false ∧ s.entries ≠ []

/-- The resize tracker agrees with the current viewport mode. -/
def modeTracked (s : EngineState) : Prop :=
  s.wasMobile = isMobile s.width

/-- The set of live interval timers is exactly the one recorded in the
module's handle. -/
def timersWellFormed (s : EngineState) : Prop :=
  s.liveTimers = s.carouselIntervalId.toList

/-- The carousel is user-paused with no live interval recorded. -/
def pausedDead (s : EngineState) : Prop :=
  s.carouselPaused = true ∧ s.carouselIntervalId = none

instance (s : EngineState) : Decidable (runningOnlyWhenAllowed s) :=
  inferInstanceAs
    (Decidable (s.carouselIntervalId.isSome = true →
      isMobile s.width = false ∧ s.carouselPaused = false ∧ s.entries ≠ []))

instance (s : EngineState) : Decidable (modeTracked s) :=
  inferInstanceAs (Decidable (s.wasMobile = isMobile s.width))

instance (s : EngineState) : Decidable (timersWellFormed s) :=
  inferInstanceAs (Decidable (s.liveTimers = s.carouselIntervalId.toList))

instance (s : EngineState) : Decidable (pausedDead s) :=
  inferInstanceAs (Decidable (s.carouselPaused = true ∧ s.carouselIntervalId = none))

/-! Frame lemmas: each operation returns either the input state or a
structure update touching only the fields it owns. -/

lemma updateImageVisibility_cases (s : EngineState) (a : Option String) (b : Bool) :
    updateImageVisibility s a b = s ∨
      ∃ sc, updateImageVisibility s a b = { s with showcase := some sc } := by
  unfold updateImageVisibility
  split
  · exact Or.inl rfl
  · exact Or.inl rfl
  · split_ifs <;> first | exact Or.inl rfl | exact Or.inr ⟨_, rfl⟩

@[simp] lemma updateImageVisibility_width (s : EngineState) (a : Option String) (b : Bool) :
    (updateImageVisibility s a b).width = s.width := by
  rcases updateImageVisibility_cases s a b with h | ⟨sc, h⟩ <;> rw [h]

@[simp] lemma updateImageVisibility_entries (s : EngineState) (a : Option String) (b : Bool) :
    (updateImageVisibility s a b).entries = s.entries := by
  rcases updateImageVisibility_cases s a b with h | ⟨sc, h⟩ <;> rw [h]

@[simp] lemma updateImageVisibility_carouselPaused (s : EngineState) (a : Option String) (b : Bool) :
    (updateImageVisibility s a b).carouselPaused = s.carouselPaused := by
  rcases updateImageVisibility_cases s a b with h | ⟨sc, h⟩ <;> rw [h]

@[simp] lemma updateImageVisibility_carouselIntervalId (s : EngineState) (a : Option String) (b : Bool) :
    (updateImageVisibility s a b).carouselIntervalId = s.carouselIntervalId := by
  rcases updateImageVisibility_cases s a b with h | ⟨sc, h⟩ <;> rw [h]

@[simp] lemma updateImageVisibility_liveTimers (s : EngineState) (a : Option String) (b : Bool) :
    (updateImageVisibility s a b).liveTimers = s.liveTimers := by
  rcases updateImageVisibility_cases s a b with h | ⟨sc, h⟩ <;> rw [h]

@[simp] lemma updateImageVisibility_nextTimerId (s : EngineState) (a : Option String) (b : Bool) :
    (updateImageVisibility s a b).nextTimerId = s.nextTimerId := by
  rcases updateImageVisibility_cases s a b with h | ⟨sc, h⟩ <;> rw [h]

@[simp] lemma updateImageVisibility_wasMobile (s : EngineState) (a : Option String) (b : Bool) :
    (updateImageVisibility s a b).wasMobile = s.wasMobile := by
  rcases updateImageVisibility_cases s a b with h | ⟨sc, h⟩ <;> rw [h]

@[simp] lemma updateImageVisibility_modalPresent (s : EngineState) (a : Option String) (b : Bool) :
    (updateImageVisibility s a b).modalPresent = s.modalPresent := by
  rcases updateImageVisibility_cases s a b with h | ⟨sc, h⟩ <;> rw [h]

@[simp] lemma updateImageVisibility_modalActive (s : EngineState) (a : Option String) (b : Bool) :
    (updateImageVisibility s a b).modalActive = s.modalActive := by
  rcases updateImageVisibility_cases s a b with h | ⟨sc, h⟩ <;> rw [h]

@[simp] lemma updateImageVisibility_mobileShowcase (s : EngineState) (a : Option String) (b : Bool) :
    (updateImageVisibility s a b).mobileShowcase = s.mobileShowcase := by
  rcases updateImageVisibility_cases s a b with h | ⟨sc, h⟩ <;> rw [h]

@[simp] lemma updateImageVisibility_progressOuterPresent (s : EngineState) (a : Option String) (b : Bool) :
    (updateImageVisibility s a b).progressOuterPresent = s.progressOuterPresent := by
  rcases updateImageVisibility_cases s a b with h | ⟨sc, h⟩ <;> rw [h]

@[simp] lemma updateImageVisibility_progressInnerPresent (s : EngineState) (a : Option String) (b : Bool) :
    (updateImageVisibility s a b).progressInnerPresent = s.progressInnerPresent := by
  rcases updateImageVisibility_cases s a b with h | ⟨sc, h⟩ <;> rw [h]

@[simp] lemma updateImageVisibility_showcase_isSome (s : EngineState) (a : Option String) (b : Bool) :
    (updateImageVisibility s a b).showcase.isSome = s.showcase.isSome := by
  unfold updateImageVisibility
  split
  · rfl
  · rfl
  · split_ifs <;> simp_all

lemma fadeTimeoutFire_cases (s : EngineState) :
    fadeTimeoutFire s = s ∨ ∃ sc, fadeTimeoutFire s = { s with showcase := some sc } := by
  unfold fadeTimeoutFire
  split
  · exact Or.inl rfl
  · split
    · exact Or.inl rfl
    · exact Or.inr ⟨_, rfl⟩

@[simp] lemma fadeTimeoutFire_width (s : EngineState) :
    (fadeTimeoutFire s).width = s.width := by
  rcases fadeTimeoutFire_cases s with h | ⟨sc, h⟩ <;> rw [h]

@[simp] lemma fadeTimeoutFire_entries (s : EngineState) :
    (fadeTimeoutFire s).entries = s.entries := by
  rcases fadeTimeoutFire_cases s with h | ⟨sc, h⟩ <;> rw [h]

@[simp] lemma fadeTimeoutFire_carouselPaused (s : EngineState) :
    (fadeTimeoutFire s).carouselPaused = s.carouselPaused := by
  rcases fadeTimeoutFire_cases s with h | ⟨sc, h⟩ <;> rw [h]

@[simp] lemma fadeTimeoutFire_carouselIntervalId (s : EngineState) :
    (fadeTimeoutFire s).carouselIntervalId = s.carouselIntervalId := by
  rcases fadeTimeoutFire_cases s with h | ⟨sc, h⟩ <;> rw [h]

@[simp] lemma fadeTimeoutFire_liveTimers (s : EngineState) :
    (fadeTimeoutFire s).liveTimers = s.liveTimers := by
  rcases fadeTimeoutFire_cases s with h | ⟨sc, h⟩ <;> rw [h]

@[simp] lemma fadeTimeoutFire_wasMobile (s : EngineState) :
    (fadeTimeoutFire s).wasMobile = s.wasMobile := by
  rcases fadeTimeoutFire_cases s with h | ⟨sc, h⟩ <;> rw [h]

lemma openMobileModal_cases (s : EngineState) (a : Option String) :
    openMobileModal s a = s ∨
      ∃ m, openMobileModal s a =
        { s with mobileShowcase := m, modalActive := true, bodyScrollLocked := true } := by
  unfold openMobileModal
  split_ifs with h h2
  · exact Or.inl rfl
  all_goals split
  all_goals
    first
      | exact Or.inl rfl
      | exact Or.inr ⟨some a, rfl⟩
      | exact Or.inr ⟨s.mobileShowcase, rfl⟩

@[simp] lemma openMobileModal_width (s : EngineState) (a : Option String) :
    (openMobileModal s a).width = s.width := by
  rcases openMobileModal_cases s a with h | ⟨m, h⟩ <;> rw [h]

@[simp] lemma openMobileModal_entries (s : EngineState) (a : Option String) :
    (openMobileModal s a).entries = s.entries := by
  rcases openMobileModal_cases s a with h | ⟨m, h⟩ <;> rw [h]

@[simp] lemma openMobileModal_carouselPaused (s : EngineState) (a : Option String) :
    (openMobileModal s a).carouselPaused = s.carouselPaused := by
  rcases openMobileModal_cases s a with h | ⟨m, h⟩ <;> rw [h]

@[simp] lemma openMobileModal_carouselIntervalId (s : EngineState) (a : Option String) :
    (openMobileModal s a).carouselIntervalId = s.carouselIntervalId := by
  rcases openMobileModal_cases s a with h | ⟨m, h⟩ <;> rw [h]

@[simp] lemma openMobileModal_liveTimers (s : EngineState) (a : Option String) :
    (openMobileModal s a).liveTimers = s.liveTimers := by
  rcases openMobileModal_cases s a with h | ⟨m, h⟩ <;> rw [h]

@[simp] lemma openMobileModal_wasMobile (s : EngineState) (a : Option String) :
    (openMobileModal s a).wasMobile = s.wasMobile := by
  rcases openMobileModal_cases s a with h | ⟨m, h⟩ <;> rw [h]

lemma closeMobileModal_cases (s : EngineState) :
    closeMobileModal s = s ∨
      closeMobileModal s = { s with modalActive := false, bodyScrollLocked := false } := by
  unfold closeMobileModal
  split_ifs <;> [exact Or.inl rfl; exact Or.inr rfl]

@[simp] lemma closeMobileModal_width (s : EngineState) :
    (closeMobileModal s).width = s.width := by
  rcases closeMobileModal_cases s with h | h <;> rw [h]

@[simp] lemma closeMobileModal_entries (s : EngineState) :
    (closeMobileModal s).entries = s.entries := by
  rcases closeMobileModal_cases s with h | h <;> rw [h]

@[simp] lemma closeMobileModal_carouselPaused (s : EngineState) :
    (closeMobileModal s).carouselPaused = s.carouselPaused := by
  rcases closeMobileModal_cases s with h | h <;> rw [h]

@[simp] lemma closeMobileModal_carouselIntervalId (s : EngineState) :
    (closeMobileModal s).carouselIntervalId = s.carouselIntervalId := by
  rcases closeMobileModal_cases s with h | h <;> rw [h]

@[simp] lemma closeMobileModal_liveTimers (s : EngineState) :
    (closeMobileModal s).liveTimers = s.liveTimers := by
  rcases closeMobileModal_cases s with h | h <;> rw [h]

@[simp] lemma closeMobileModal_nextTimerId (s : EngineState) :
    (closeMobileModal s).nextTimerId = s.nextTimerId := by
  rcases closeMobileModal_cases s with h | h <;> rw [h]

@[simp] lemma closeMobileModal_wasMobile (s : EngineState) :
    (closeMobileModal s).wasMobile = s.wasMobile := by
  rcases closeMobileModal_cases s with h | h <;> rw [h]

@[simp] lemma closeMobileModal_showcase (s : EngineState) :
    (closeMobileModal s).showcase = s.showcase := by
  rcases closeMobileModal_cases s with h | h <;> rw [h]

@[simp] lemma closeMobileModal_mobileShowcase (s : EngineState) :
    (closeMobileModal s).mobileShowcase = s.mobileShowcase := by
  rcases closeMobileModal_cases s with h | h <;> rw [h]

lemma closeMobileModal_modalActive (s : EngineState) (h : s.modalPresent = true) :
    (closeMobileModal s).modalActive = false := by
  unfold closeMobileModal
  simp [h]

lemma startProgressBar_cases (s : EngineState) :
    startProgressBar s = s ∨
      startProgressBar s = { s with progressRunning := true, progressPaused := false } := by
  unfold startProgressBar
  split_ifs <;> first | exact Or.inl rfl | exact Or.inr rfl

@[simp] lemma startProgressBar_width (s : EngineState) :
    (startProgressBar s).width = s.width := by
  rcases startProgressBar_cases s with h | h <;> rw [h]

@[simp] lemma startProgressBar_entries (s : EngineState) :
    (startProgressBar s).entries = s.entries := by
  rcases startProgressBar_cases s with h | h <;> rw [h]

@[simp] lemma startProgressBar_carouselPaused (s : EngineState) :
    (startProgressBar s).carouselPaused = s.carouselPaused := by
  rcases startProgressBar_cases s with h | h <;> rw [h]

@[simp] lemma startProgressBar_carouselIntervalId (s : EngineState) :
    (startProgressBar s).carouselIntervalId = s.carouselIntervalId := by
  rcases startProgressBar_cases s with h | h <;> rw [h]

@[simp] lemma startProgressBar_liveTimers (s : EngineState) :
    (startProgressBar s).liveTimers = s.liveTimers := by
  rcases startProgressBar_cases s with h | h <;> rw [h]

@[simp] lemma startProgressBar_nextTimerId (s : EngineState) :
    (startProgressBar s).nextTimerId = s.nextTimerId := by
  rcases startProgressBar_cases s with h | h <;> rw [h]

@[simp] lemma startProgressBar_wasMobile (s : EngineState) :
    (startProgressBar s).wasMobile = s.wasMobile := by
  rcases startProgressBar_cases s with h | h <;> rw [h]

@[simp] lemma startProgressBar_showcase (s : EngineState) :
    (startProgressBar s).showcase = s.showcase := by
  rcases startProgressBar_cases s with h | h <;> rw [h]

@[simp] lemma startProgressBar_modalActive (s : EngineState) :
    (startProgressBar s).modalActive = s.modalActive := by
  rcases startProgressBar_cases s with h | h <;> rw [h]

@[simp] lemma startProgressBar_mobileShowcase (s : EngineState) :
    (startProgressBar s).mobileShowcase = s.mobileShowcase := by
  rcases startProgressBar_cases s with h | h <;> rw [h]

lemma pauseProgressBar_cases (s : EngineState) :
    pauseProgressBar s = s ∨
      pauseProgressBar s = { s with progressRunning := false, progressPaused := true } := by
  unfold pauseProgressBar
  split_ifs <;> first | exact Or.inl rfl | exact Or.inr rfl

@[simp] lemma pauseProgressBar_width (s : EngineState) :
    (pauseProgressBar s).width = s.width := by
  rcases pauseProgressBar_cases s with h | h <;> rw [h]

@[simp] lemma pauseProgressBar_entries (s : EngineState) :
    (pauseProgressBar s).entries = s.entries := by
  rcases pauseProgressBar_cases s with h | h <;> rw [h]

@[simp] lemma pauseProgressBar_carouselPaused (s : EngineState) :
    (pauseProgressBar s).carouselPaused = s.carouselPaused := by
  rcases pauseProgressBar_cases s with h | h <;> rw [h]

@[simp] lemma pauseProgressBar_carouselIntervalId (s : EngineState) :
    (pauseProgressBar s).carouselIntervalId = s.carouselIntervalId := by
  rcases pauseProgressBar_cases s with h | h <;> rw [h]

@[simp] lemma pauseProgressBar_liveTimers (s : EngineState) :
    (pauseProgressBar s).liveTimers = s.liveTimers := by
  rcases pauseProgressBar_cases s with h | h <;> rw [h]

@[simp] lemma pauseProgressBar_wasMobile (s : EngineState) :
    (pauseProgressBar s).wasMobile = s.wasMobile := by
  rcases pauseProgressBar_cases s with h | h <;> rw [h]

@[simp] lemma pauseProgressBar_modalActive (s : EngineState) :
    (pauseProgressBar s).modalActive = s.modalActive := by
  rcases pauseProgressBar_cases s with h | h <;> rw [h]

@[simp] lemma pauseProgressBar_mobileShowcase (s : EngineState) :
    (pauseProgressBar s).mobileShowcase = s.mobileShowcase := by
  rcases pauseProgressBar_cases s with h | h <;> rw [h]

lemma pauseProgressBar_paused_of_present (s : EngineState)
    (h : s.progressOuterPresent = true) :
    (pauseProgressBar s).progressRunning = false ∧ (pauseProgressBar s).progressPaused = true := by
  unfold pauseProgressBar
  simp [h]

@[simp] lemma stopCarousel_width (s : EngineState) :
    (stopCarousel s).width = s.width := by
  unfold stopCarousel
  rcases h : s.carouselIntervalId with _ | tid <;> rfl

@[simp] lemma stopCarousel_entries (s : EngineState) :
    (stopCarousel s).entries = s.entries := by
  unfold stopCarousel
  rcases h : s.carouselIntervalId with _ | tid <;> rfl

@[simp] lemma stopCarousel_carouselPaused (s : EngineState) :
    (stopCarousel s).carouselPaused = s.carouselPaused := by
  unfold stopCarousel
  rcases h : s.carouselIntervalId with _ | tid <;> rfl

@[simp] lemma stopCarousel_carouselIntervalId (s : EngineState) :
    (stopCarousel s).carouselIntervalId = none := by
  unfold stopCarousel
  rcases h : s.carouselIntervalId with _ | tid <;> simp [h]

@[simp] lemma stopCarousel_nextTimerId (s : EngineState) :
    (stopCarousel s).nextTimerId = s.nextTimerId := by
  unfold stopCarousel
  rcases h : s.carouselIntervalId with _ | tid <;> rfl

@[simp] lemma stopCarousel_wasMobile (s : EngineState) :
    (stopCarousel s).wasMobile = s.wasMobile := by
  unfold stopCarousel
  rcases h : s.carouselIntervalId with _ | tid <;> rfl

@[simp] lemma stopCarousel_showcase (s : EngineState) :
    (stopCarousel s).showcase = s.showcase := by
  unfold stopCarousel
  rcases h : s.carouselIntervalId with _ | tid <;> rfl

@[simp] lemma stopCarousel_modalActive (s : EngineState) :
    (stopCarousel s).modalActive = s.modalActive := by
  unfold stopCarousel
  rcases h : s.carouselIntervalId with _ | tid <;> rfl

@[simp] lemma stopCarousel_modalPresent (s : EngineState) :
    (stopCarousel s).modalPresent = s.modalPresent := by
  unfold stopCarousel
  rcases h : s.carouselIntervalId with _ | tid <;> rfl

@[simp] lemma stopCarousel_mobileShowcase (s : EngineState) :
    (stopCarousel s).mobileShowcase = s.mobileShowcase := by
  unfold stopCarousel
  rcases h : s.carouselIntervalId with _ | tid <;> rfl

@[simp] lemma stopCarousel_progressOuterPresent (s : EngineState) :
    (stopCarousel s).progressOuterPresent = s.progressOuterPresent := by
  unfold stopCarousel
  rcases h : s.carouselIntervalId with _ | tid <;> rfl

@[simp] lemma stopCarousel_progressRunning (s : EngineState) :
    (stopCarousel s).progressRunning = s.progressRunning := by
  unfold stopCarousel
  rcases h : s.carouselIntervalId with _ | tid <;> rfl

@[simp] lemma stopCarousel_progressPaused (s : EngineState) :
    (stopCarousel s).progressPaused = s.progressPaused := by
  unfold stopCarousel
  rcases h : s.carouselIntervalId with _ | tid <;> rfl

lemma stopCarousel_liveTimers_of_wf (s : EngineState) (h : timersWellFormed s) :
    (stopCarousel s).liveTimers = [] := by
  unfold timersWellFormed at h
  unfold stopCarousel
  rcases h2 : s.carouselIntervalId with _ | tid
  · simp [h2] at h
    simpa using h
  · simp [h2] at h
    simp [h, List.erase_cons]

/-! Lemmas about `startCarousel`, `pauseCarousel` and the carousel tick. -/

lemma startCarousel_guard (s : EngineState)
    (h : isMobile s.width = true ∨ s.carouselPaused = true ∨ s.entries = []) :
    startCarousel s = s := by
  unfold startCarousel
  have hg : (isMobile s.width || s.entries.isEmpty || s.showcase.isNone || s.carouselPaused) = true := by
    rcases h with h | h | h <;> simp [h]
  simp [hg]

lemma startCarousel_run (s : EngineState) (hm : isMobile s.width = false)
    (hne : s.entries.isEmpty = false) (hsc : s.showcase.isNone = false)
    (hp : s.carouselPaused = false) :
    startCarousel s =
      { startProgressBar (stopCarousel s) with
        carouselIntervalId := some s.nextTimerId
        liveTimers := s.nextTimerId :: (startProgressBar (stopCarousel s)).liveTimers
        nextTimerId := s.nextTimerId + 1 } := by
  unfold startCarousel
  simp [hm, hne, hsc, hp]

@[simp] lemma startCarousel_width (s : EngineState) :
    (startCarousel s).width = s.width := by
  unfold startCarousel
  split_ifs with h
  · rfl
  · simp

@[simp] lemma startCarousel_entries (s : EngineState) :
    (startCarousel s).entries = s.entries := by
  unfold startCarousel
  split_ifs with h
  · rfl
  · simp

@[simp] lemma startCarousel_carouselPaused (s : EngineState) :
    (startCarousel s).carouselPaused = s.carouselPaused := by
  unfold startCarousel
  split_ifs with h
  · rfl
  · simp

@[simp] lemma startCarousel_wasMobile (s : EngineState) :
    (startCarousel s).wasMobile = s.wasMobile := by
  unfold startCarousel
  split_ifs with h
  · rfl
  · simp

@[simp] lemma startCarousel_showcase (s : EngineState) :
    (startCarousel s).showcase = s.showcase := by
  unfold startCarousel
  split_ifs with h
  · rfl
  · simp

@[simp] lemma startCarousel_modalActive (s : EngineState) :
    (startCarousel s).modalActive = s.modalActive := by
  unfold startCarousel
  split_ifs with h
  · rfl
  · simp

@[simp] lemma startCarousel_mobileShowcase (s : EngineState) :
    (startCarousel s).mobileShowcase = s.mobileShowcase := by
  unfold startCarousel
  split_ifs with h
  · rfl
  · simp

@[simp] lemma pauseCarousel_carouselPaused (s : EngineState) :
    (pauseCarousel s).carouselPaused = true := by
  unfold pauseCarousel
  simp

@[simp] lemma pauseCarousel_carouselIntervalId (s : EngineState) :
    (pauseCarousel s).carouselIntervalId = none := by
  unfold pauseCarousel
  simp

@[simp] lemma pauseCarousel_width (s : EngineState) :
    (pauseCarousel s).width = s.width := by
  unfold pauseCarousel
  simp

@[simp] lemma pauseCarousel_entries (s : EngineState) :
    (pauseCarousel s).entries = s.entries := by
  unfold pauseCarousel
  simp

@[simp] lemma pauseCarousel_wasMobile (s : EngineState) :
    (pauseCarousel s).wasMobile = s.wasMobile := by
  unfold pauseCarousel
  simp

/-! List primitives. -/

@[simp] lemma clearSelected_length (l : List Entry) :
    (clearSelected l).length = l.length := by
  simp [clearSelected]

@[simp] lemma setSelectedAt_length (l : List Entry) (j : Nat) :
    (setSelectedAt l j).length = l.length := by
  induction l generalizing j with
  | nil => rfl
  | cons e t ih => cases j <;> simp [setSelectedAt, ih]

lemma clearSelected_get_selected (l : List Entry) (k : Nat) (hk : k < (clearSelected l).length) :
    ((clearSelected l).get ⟨k, hk⟩).selected = false := by
  simp [clearSelected]

lemma onlySelectedAt_setSelectedAt_clearSelected (l : List Entry) (j : Nat)
    (hj : j < l.length) :
    onlySelectedAt (setSelectedAt (clearSelected l) j) j := by
  induction l generalizing j with
  | nil => cases hj
  | cons e t ih =>
    cases j with
    | zero =>
      intro k hk
      cases k with
      | zero => simp [clearSelected, setSelectedAt]
      | succ m =>
        have hm : m < (clearSelected t).length := by
          simpa [clearSelected, setSelectedAt] using hk
        simp only [clearSelected, setSelectedAt, List.map_cons] at hk ⊢
        simp [clearSelected] at hm ⊢
    | succ j =>
      intro k hk
      cases k with
      | zero => simp [clearSelected, setSelectedAt]
      | succ m =>
        have hj2 : j < t.length := by simpa using Nat.lt_of_succ_lt_succ hj
        have hm : m < (setSelectedAt (clearSelected t) j).length := by
          simpa [clearSelected, setSelectedAt] using hk
        have := ih j hj2 m hm
        simp only [clearSelected, setSelectedAt, List.map_cons] at hk ⊢
        simpa [Nat.succ_inj] using this

/-! The index scan of the carousel tick. -/

lemma foldl_selScan_none (l : List Entry) (b : Nat) (acc : Int)
    (h : ∀ e ∈ l, e.selected = false) :
    (List.enumFrom b l).foldl (fun acc p => if p.2.selected then (p.1 : Int) else acc) acc
      = acc := by
  induction l generalizing b acc with
  | nil => rfl
  | cons e t ih =>
    have he : e.selected = false := h e (List.mem_cons_self e t)
    simp only [List.enumFrom, List.foldl_cons, he, if_neg Bool.false_ne_true]
    exact ih (b + 1) acc (fun x hx => h x (List.mem_cons_of_mem e hx))

lemma foldl_selScan_only (l : List Entry) (i : Nat) (hi : i < l.length)
    (hsel : ∀ j (hj : j < l.length), (l.get ⟨j, hj⟩).selected = decide (j = i)) :
    ∀ b acc,
      (List.enumFrom b l).foldl (fun acc p => if p.2.selected then (p.1 : Int) else acc) acc
        = ((b + i : Nat) : Int) := by
  induction l generalizing i with
  | nil => cases hi
  | cons e t ih =>
    intro b acc
    cases i with
    | zero =>
      have he : e.selected = true := by simpa using hsel 0 (by simp)
      have ht : ∀ x ∈ t, x.selected = false := by
        intro x hx
        obtain ⟨⟨m, hm⟩, rfl⟩ := List.mem_iff_get.mp hx
        have := hsel (m + 1) (by simpa using Nat.succ_lt_succ hm)
        simpa using this
      simp only [List.enumFrom, List.foldl_cons, he, eq_self_iff_true, if_true]
      rw [foldl_selScan_none t (b + 1) (b : Int) ht]
      simp
    | succ j =>
      have he : e.selected = false := by simpa using hsel 0 (by simp)
      have hj : j < t.length := by simpa using Nat.lt_of_succ_lt_succ hi
      have ht : ∀ m (hm : m < t.length), (t.get ⟨m, hm⟩).selected = decide (m = j) := by
        intro m hm
        have := hsel (m + 1) (by simpa using Nat.succ_lt_succ hm)
        simpa [Nat.succ_inj] using this
      simp only [List.enumFrom, List.foldl_cons, he, if_neg Bool.false_ne_true]
      rw [ih j hj ht (b + 1) acc]
      congr 1
      omega

lemma findSelectedIndex_only (l : List Entry) (i : Nat) (hi : i < l.length)
    (hsel : onlySelectedAt l i) : findSelectedIndex l = (i : Int) := by
  unfold findSelectedIndex
  have := foldl_selScan_only l i hi hsel 0 (-1)
  simpa [List.enum] using this

lemma findSelectedIndex_none (l : List Entry) (h : ∀ e ∈ l, e.selected = false) :
    findSelectedIndex l = -1 := by
  unfold findSelectedIndex
  have := foldl_selScan_none l 0 (-1) h
  simpa [List.enum] using this

/-! The carousel tick. -/

lemma carouselTick_stopped (s : EngineState)
    (h : (isMobile s.width || s.carouselPaused) = true) :
    carouselTick s = stopCarousel s := by
  unfold carouselTick
  simp [h]

@[simp] lemma carouselTick_width (s : EngineState) :
    (carouselTick s).width = s.width := by
  unfold carouselTick
  split_ifs
  · simp
  · dsimp only
    split <;> simp

@[simp] lemma carouselTick_carouselPaused (s : EngineState) :
    (carouselTick s).carouselPaused = s.carouselPaused := by
  unfold carouselTick
  split_ifs
  · simp
  · dsimp only
    split <;> simp

@[simp] lemma carouselTick_wasMobile (s : EngineState) :
    (carouselTick s).wasMobile = s.wasMobile := by
  unfold carouselTick
  split_ifs
  · simp
  · dsimp only
    split <;> simp

@[simp] lemma carouselTick_entries_length (s : EngineState) :
    (carouselTick s).entries.length = s.entries.length := by
  unfold carouselTick
  split_ifs
  · simp
  · dsimp only
    split <;> simp

lemma carouselTick_carouselIntervalId (s : EngineState) :
    (carouselTick s).carouselIntervalId = s.carouselIntervalId ∨
      (carouselTick s).carouselIntervalId = none := by
  unfold carouselTick
  split_ifs
  · exact Or.inr (by simp)
  · exact Or.inl (by dsimp only; split <;> simp)

lemma carouselTick_advance_entries (s : EngineState) (hm : isMobile s.width = false)
    (hp : s.carouselPaused = false) :
    (carouselTick s).entries =
      setSelectedAt (clearSelected s.entries)
        ((findSelectedIndex s.entries + 1) % (s.entries.length : Int)).toNat := by
  unfold carouselTick
  rw [if_neg (by simp [hm, hp])]
  simp only [startProgressBar_entries]
  split_ifs <;> simp

lemma next_index_toNat (i n : Nat) :
    (((i : Int) + 1) % (n : Int)).toNat = (i + 1) % n := by
  rw [show ((i : Int) + 1) = ((i + 1 : Nat) : Int) by push_cast; ring]
  rw [show ((i + 1 : Nat) : Int) % (n : Int) = (((i + 1) % n : Nat) : Int) from
    (Int.ofNat_emod _ _).symm]
  exact Int.toNat_natCast _

/-- The configuration from which a tick advances: desktop, not user-paused,
`n` entries and exactly entry `i` selected. -/
def tickReady (s : EngineState) (n i : Nat) : Prop :=
  isMobile s.width = false ∧ s.carouselPaused = false ∧ s.entries.length = n ∧
    i < n ∧ onlySelectedAt s.entries i

lemma carouselTick_ready_step (s : EngineState) (n i : Nat) (h : tickReady s n i) :
    tickReady (carouselTick s) n ((i + 1) % n) := by
  obtain ⟨hm, hp, hlen, hi, hsel⟩ := h
  have hfind : findSelectedIndex s.entries = (i : Int) :=
    findSelectedIndex_only _ i (by omega) hsel
  have hent := carouselTick_advance_entries s hm hp
  rw [hfind, hlen, next_index_toNat i n] at hent
  have hn : 0 < n := by omega
  refine ⟨by simp [hm], by simp [hp], by simp [hlen], Nat.mod_lt _ hn, ?_⟩
  rw [hent]
  exact onlySelectedAt_setSelectedAt_clearSelected s.entries ((i + 1) % n)
    (by rw [hlen]; exact Nat.mod_lt _ hn)

lemma carouselTick_iterate (s : EngineState) (n i : Nat) (h : tickReady s n i) :
    ∀ k, tickReady (carouselTick^[k] s) n ((i + k) % n) := by
  intro k
  induction k with
  | zero =>
    have hi : i < n := h.2.2.2.1
    simpa [Nat.mod_eq_of_lt hi] using h
  | succ k ih =>
    rw [Function.iterate_succ_apply']
    have h2 := carouselTick_ready_step _ n ((i + k) % n) ih
    have h3 : ((i + k) % n + 1) % n = (i + (k + 1)) % n := by
      have h4 : ((i + k) % n + 1) % n = ((i + k) + 1) % n :=
        (Nat.mod_modEq (i + k) n).add_right 1
      rw [h4, Nat.add_assoc]
    rwa [h3] at h2

/-- C2: for every entry list of length N greater than one and every start
index i below N, one carousel tick in desktop unpaused mode moves the
selection from exactly index i to exactly index (i+1) mod N, and N
consecutive ticks return the selection to exactly index i. -/
theorem carouselTick_cyclic (s : EngineState) (i : Nat)
    (hm : isMobile s.width = false) (hp : s.carouselPaused = false)
    (hn : 1 < s.entries.length) (hi : i < s.entries.length)
    (hsel : onlySelectedAt s.entries i) :
    onlySelectedAt (carouselTick s).entries ((i + 1) % s.entries.length) ∧
    onlySelectedAt ((carouselTick^[s.entries.length]) s).entries i := by
  have h : tickReady s s.entries.length i := ⟨hm, hp, rfl, hi, hsel⟩
  constructor
  · exact (carouselTick_ready_step s _ i h).2.2.2.2
  · have h2 := (carouselTick_iterate s _ i h s.entries.length).2.2.2.2
    rwa [Nat.add_mod_right, Nat.mod_eq_of_lt hi] at h2

/-- A concrete engine state for the C2 witness: desktop viewport, two
entries with the first selected, carousel running. -/
def c2State : EngineState :=
  { width := 1024
    entries := [⟨some "a", true⟩, ⟨some "b", false⟩]
    showcase := some ⟨some "a", true, false, none⟩
    mobileShowcase := some none
    modalPresent := true
    modalActive := false
    bodyScrollLocked := false
    progressOuterPresent := true
    progressInnerPresent := true
    progressRunning := true
    progressPaused := false
    carouselIntervalId := some 0
    liveTimers := [0]
    nextTimerId := 1
    carouselPaused := false
    wasMobile := false }

/-- Witness for C2: on the two-entry desktop state, one tick selects
exactly index 1 and two ticks return the selection to exactly index 0. -/
theorem carouselTick_cyclic_witness :
    onlySelectedAt (carouselTick c2State).entries ((0 + 1) % c2State.entries.length) ∧
    onlySelectedAt ((carouselTick^[c2State.entries.length]) c2State).entries 0 :=
  carouselTick_cyclic c2State 0 (by decide) (by decide) (by decide) (by decide) (by decide)

/-- C10: if a tick fires in desktop unpaused mode on a non-empty entry list
with no entry carrying the selected marker, the index scan yields -1, so the
computed next index is 0 and the first entry becomes the unique selection:
the tick does not leave the selection empty. -/
theorem carouselTick_no_selection (s : EngineState)
    (hm : isMobile s.width = false) (hp : s.carouselPaused = false)
    (hne : s.entries ≠ [])
    (hnone : ∀ e ∈ s.entries, e.selected = false) :
    findSelectedIndex s.entries = -1 ∧
    onlySelectedAt (carouselTick s).entries 0 := by
  have hfind := findSelectedIndex_none s.entries hnone
  refine ⟨hfind, ?_⟩
  have hent := carouselTick_advance_entries s hm hp
  rw [hfind] at hent
  have hz : ((-1 + 1 : Int) % (s.entries.length : Int)).toNat = 0 := by
    norm_num
  rw [hz] at hent
  rw [hent]
  exact onlySelectedAt_setSelectedAt_clearSelected s.entries 0 (List.length_pos.mpr hne)

/-- A concrete engine state for the C10 witness: desktop viewport, three
entries, none selected. -/
def c10State : EngineState :=
  { width := 900
    entries := [⟨some "a", false⟩, ⟨some "b", false⟩, ⟨some "c", false⟩]
    showcase := some ⟨none, true, false, none⟩
    mobileShowcase := some none
    modalPresent := true
    modalActive := false
    bodyScrollLocked := false
    progressOuterPresent := true
    progressInnerPresent := true
    progressRunning := false
    progressPaused := false
    carouselIntervalId := some 7
    liveTimers := [7]
    nextTimerId := 8
    carouselPaused := false
    wasMobile := false }

/-- Witness for C10: on the three-entry state with nothing selected, the
scan yields -1 and a tick selects exactly the first entry. -/
theorem carouselTick_no_selection_witness :
    findSelectedIndex c10State.entries = -1 ∧
    onlySelectedAt (carouselTick c10State).entries 0 :=
  carouselTick_no_selection c10State (by decide) (by decide) (by decide) (by decide)

/-! Lemmas about `selectEntry`. -/

@[simp] lemma selectEntry_width (s : EngineState) (i : Nat) (u : Bool) :
    (selectEntry s i u).width = s.width := by
  unfold selectEntry
  split
  · rfl
  · dsimp only
    split_ifs <;> simp

@[simp] lemma selectEntry_wasMobile (s : EngineState) (i : Nat) (u : Bool) :
    (selectEntry s i u).wasMobile = s.wasMobile := by
  unfold selectEntry
  split
  · rfl
  · dsimp only
    split_ifs <;> simp

@[simp] lemma selectEntry_entries_length (s : EngineState) (i : Nat) (u : Bool) :
    (selectEntry s i u).entries.length = s.entries.length := by
  unfold selectEntry
  split
  · rfl
  · dsimp only
    split_ifs <;> simp

lemma selectEntry_timer_cases (s : EngineState) (i : Nat) (u : Bool) :
    ((selectEntry s i u).carouselIntervalId = s.carouselIntervalId ∧
      (selectEntry s i u).carouselPaused = s.carouselPaused ∧
      (selectEntry s i u).liveTimers = s.liveTimers) ∨
    (selectEntry s i u).carouselIntervalId = none := by
  unfold selectEntry
  split
  · exact Or.inl ⟨rfl, rfl, rfl⟩
  · dsimp only
    by_cases hm : isMobile s.width = true
    · rw [if_pos hm]
      split_ifs <;> exact Or.inl (by simp)
    · rw [if_neg hm]
      cases u with
      | false =>
        refine Or.inl ?_
        rw [if_neg (by simp : ¬(false = true))]
        refine ⟨?_, ?_, ?_⟩ <;> (split <;> simp)
      | true =>
        refine Or.inr ?_
        rw [if_pos rfl]
        simp

lemma selectEntry_paused_mono (s : EngineState) (i : Nat) (u : Bool)
    (h : s.carouselPaused = true) :
    (selectEntry s i u).carouselPaused = true := by
  unfold selectEntry
  split
  · exact h
  · dsimp only
    split_ifs <;> simp [h]

lemma selectEntry_user_desktop (s : EngineState) (i : Nat)
    (hm : isMobile s.width = false) (hi : i < s.entries.length) :
    pausedDead (selectEntry s i true) := by
  have hent : s.entries.get? i = some (s.entries.get ⟨i, hi⟩) := List.get?_eq_get hi
  unfold selectEntry
  rw [hent]
  dsimp only
  rw [if_neg (by simp [hm])]
  constructor <;> simp

/-! Decomposing the carousel start guard. -/

lemma startCarousel_guard_false (s : EngineState)
    (hg : ¬(isMobile s.width || s.entries.isEmpty || s.showcase.isNone || s.carouselPaused) = true) :
    isMobile s.width = false ∧ s.entries.isEmpty = false ∧ s.showcase.isNone = false ∧
      s.carouselPaused = false := by
  simp only [Bool.or_eq_true, not_or, Bool.not_eq_true] at hg
  tauto

lemma startCarousel_preserves_runningInv (s : EngineState)
    (h : runningOnlyWhenAllowed s) :
    runningOnlyWhenAllowed (startCarousel s) := by
  by_cases hg :
      (isMobile s.width || s.entries.isEmpty || s.showcase.isNone || s.carouselPaused) = true
  · unfold startCarousel
    rw [if_pos hg]
    exact h
  · obtain ⟨hm, he, _, hp⟩ := startCarousel_guard_false s hg
    intro _
    refine ⟨by simpa using hm, by simpa using hp, ?_⟩
    rw [startCarousel_entries]
    intro hnil
    rw [hnil] at he
    simp at he

lemma startCarousel_wf (s : EngineState) (h : timersWellFormed s) :
    timersWellFormed (startCarousel s) := by
  by_cases hg :
      (isMobile s.width || s.entries.isEmpty || s.showcase.isNone || s.carouselPaused) = true
  · unfold startCarousel
    rw [if_pos hg]
    exact h
  · obtain ⟨hm, he, hs, hp⟩ := startCarousel_guard_false s hg
    rw [startCarousel_run s hm he hs hp]
    unfold timersWellFormed
    simp [stopCarousel_liveTimers_of_wf s h]

lemma startCarousel_run_isSome (s : EngineState) (hm : isMobile s.width = false)
    (hne : s.entries ≠ []) (hsc : s.showcase.isSome = true)
    (hp : s.carouselPaused = false) :
    (startCarousel s).carouselIntervalId = some s.nextTimerId := by
  have he : s.entries.isEmpty = false := by
    cases hl : s.entries with
    | nil => exact absurd hl hne
    | cons a t => simp
  have hs : s.showcase.isNone = false := by
    rcases ho : s.showcase with _ | sc
    · rw [ho] at hsc
      simp at hsc
    · simp
  rw [startCarousel_run s hm he hs hp]

lemma startCarousel_isSome_of (s : EngineState) (hm : isMobile s.width = false)
    (hne : s.entries ≠ []) (hsc : s.showcase.isSome = true)
    (hp : s.carouselPaused = false) :
    (startCarousel s).carouselIntervalId.isSome = true := by
  rw [startCarousel_run_isSome s hm hne hsc hp]
  rfl

lemma stopCarousel_wf (s : EngineState) (h : timersWellFormed s) :
    timersWellFormed (stopCarousel s) := by
  unfold timersWellFormed
  rw [stopCarousel_liveTimers_of_wf s h, stopCarousel_carouselIntervalId]
  rfl

lemma pauseCarousel_wf (s : EngineState) (h : timersWellFormed s) :
    timersWellFormed (pauseCarousel s) := by
  unfold pauseCarousel
  have h2 := stopCarousel_wf { s with carouselPaused := true } (by
    unfold timersWellFormed at h ⊢
    simpa using h)
  unfold timersWellFormed at h2 ⊢
  simpa using h2

/-! Lemmas about the resize branches. -/

@[simp] lemma carryModalSelectionToDesktop_width (s : EngineState) :
    (carryModalSelectionToDesktop s).width = s.width := by
  unfold carryModalSelectionToDesktop
  dsimp only
  repeat' split
  all_goals simp

@[simp] lemma carryModalSelectionToDesktop_carouselPaused (s : EngineState) :
    (carryModalSelectionToDesktop s).carouselPaused = s.carouselPaused := by
  unfold carryModalSelectionToDesktop
  dsimp only
  repeat' split
  all_goals simp

@[simp] lemma carryModalSelectionToDesktop_carouselIntervalId (s : EngineState) :
    (carryModalSelectionToDesktop s).carouselIntervalId = s.carouselIntervalId := by
  unfold carryModalSelectionToDesktop
  dsimp only
  repeat' split
  all_goals simp

@[simp] lemma carryModalSelectionToDesktop_liveTimers (s : EngineState) :
    (carryModalSelectionToDesktop s).liveTimers = s.liveTimers := by
  unfold carryModalSelectionToDesktop
  dsimp only
  repeat' split
  all_goals simp

@[simp] lemma carryModalSelectionToDesktop_nextTimerId (s : EngineState) :
    (carryModalSelectionToDesktop s).nextTimerId = s.nextTimerId := by
  unfold carryModalSelectionToDesktop
  dsimp only
  repeat' split
  all_goals simp

@[simp] lemma carryModalSelectionToDesktop_wasMobile (s : EngineState) :
    (carryModalSelectionToDesktop s).wasMobile = s.wasMobile := by
  unfold carryModalSelectionToDesktop
  dsimp only
  repeat' split
  all_goals simp

@[simp] lemma carryModalSelectionToDesktop_entries_length (s : EngineState) :
    (carryModalSelectionToDesktop s).entries.length = s.entries.length := by
  unfold carryModalSelectionToDesktop
  dsimp only
  repeat' split
  all_goals simp

@[simp] lemma carryModalSelectionToDesktop_showcase_isSome (s : EngineState) :
    (carryModalSelectionToDesktop s).showcase.isSome = s.showcase.isSome := by
  unfold carryModalSelectionToDesktop
  dsimp only
  repeat' split
  all_goals simp

/-- The carousel invariant holds vacuously when no timer is recorded. -/
lemma runningInv_of_none (t : EngineState) (h : t.carouselIntervalId = none) :
    runningOnlyWhenAllowed t := by
  intro hsome
  rw [h] at hsome
  simp at hsome

/-- The carousel invariant ignores the resize tracker. -/
lemma runningInv_irrel_wasMobile (t : EngineState) (b : Bool)
    (h : runningOnlyWhenAllowed t) :
    runningOnlyWhenAllowed { t with wasMobile := b } := by
  intro hsome
  have h2 := h (by simpa using hsome)
  simpa using h2

@[simp] lemma resizeToDesktopBranch_width (s : EngineState) :
    (resizeToDesktopBranch s).width = s.width := by
  unfold resizeToDesktopBranch
  dsimp only
  split_ifs <;> simp

@[simp] lemma resizeToDesktopBranch_wasMobile (s : EngineState) :
    (resizeToDesktopBranch s).wasMobile = s.wasMobile := by
  unfold resizeToDesktopBranch
  dsimp only
  split_ifs <;> simp

lemma resizeToDesktopBranch_runningInv (s : EngineState)
    (h : s.carouselIntervalId = none) :
    runningOnlyWhenAllowed (resizeToDesktopBranch s) := by
  unfold resizeToDesktopBranch
  dsimp only
  apply startCarousel_preserves_runningInv
  apply runningInv_of_none
  split_ifs <;> simp [h]

lemma resizeToDesktopBranch_wf (s : EngineState) (h : timersWellFormed s) :
    timersWellFormed (resizeToDesktopBranch s) := by
  unfold resizeToDesktopBranch
  dsimp only
  apply startCarousel_wf
  unfold timersWellFormed at h ⊢
  split_ifs <;> simpa using h

@[simp] lemma resizeToMobileBranch_width (s : EngineState) :
    (resizeToMobileBranch s).width = s.width := by
  unfold resizeToMobileBranch
  dsimp only
  repeat' split
  all_goals simp

@[simp] lemma resizeToMobileBranch_wasMobile (s : EngineState) :
    (resizeToMobileBranch s).wasMobile = s.wasMobile := by
  unfold resizeToMobileBranch
  dsimp only
  repeat' split
  all_goals simp

@[simp] lemma resizeToMobileBranch_carouselPaused (s : EngineState) :
    (resizeToMobileBranch s).carouselPaused = s.carouselPaused := by
  unfold resizeToMobileBranch
  dsimp only
  repeat' split
  all_goals simp

@[simp] lemma resizeToMobileBranch_carouselIntervalId (s : EngineState) :
    (resizeToMobileBranch s).carouselIntervalId = none := by
  unfold resizeToMobileBranch
  dsimp only
  repeat' split
  all_goals simp

@[simp] lemma resizeToMobileBranch_modalActive (s : EngineState) :
    (resizeToMobileBranch s).modalActive = s.modalActive := by
  unfold resizeToMobileBranch
  dsimp only
  repeat' split
  all_goals simp

lemma resizeToMobileBranch_liveTimers_of_wf (s : EngineState) (h : timersWellFormed s) :
    (resizeToMobileBranch s).liveTimers = [] := by
  unfold resizeToMobileBranch
  dsimp only
  repeat' split
  all_goals simp [stopCarousel_liveTimers_of_wf s h]

lemma resizeToMobileBranch_wf (s : EngineState) (h : timersWellFormed s) :
    timersWellFormed (resizeToMobileBranch s) := by
  unfold timersWellFormed
  rw [resizeToMobileBranch_liveTimers_of_wf s h, resizeToMobileBranch_carouselIntervalId]
  rfl

@[simp] lemma handleResize_wasMobile (s : EngineState) (w : Nat) :
    (handleResize s w).wasMobile = isMobile w := by
  unfold handleResize
  dsimp only

@[simp] lemma handleResize_width (s : EngineState) (w : Nat) :
    (handleResize s w).width = w := by
  unfold handleResize
  dsimp only
  split_ifs <;> simp

lemma handleResize_mobile_to_desktop (s : EngineState) (w : Nat)
    (hwm : s.wasMobile = true) (hnow : isMobile w = false) :
    handleResize s w =
      { resizeToDesktopBranch { s with width := w } with wasMobile := isMobile w } := by
  unfold handleResize
  dsimp only
  simp [hwm, hnow]

lemma handleResize_desktop_to_mobile (s : EngineState) (w : Nat)
    (hwm : s.wasMobile = false) (hnow : isMobile w = true) :
    handleResize s w =
      { resizeToMobileBranch { s with width := w } with wasMobile := isMobile w } := by
  unfold handleResize
  dsimp only
  simp [hwm, hnow]

lemma handleResize_same_mode (s : EngineState) (w : Nat)
    (h : s.wasMobile = isMobile w) :
    handleResize s w = { s with width := w, wasMobile := isMobile w } := by
  unfold handleResize
  dsimp only
  by_cases hb : isMobile w = true
  · rw [hb] at h
    simp [h, hb]
  · have hb' : isMobile w = false := by simpa using hb
    rw [hb'] at h
    simp [h, hb']

lemma handleResize_preserves_runningInv (s : EngineState) (w : Nat)
    (hmt : modeTracked s) (h : runningOnlyWhenAllowed s) :
    runningOnlyWhenAllowed (handleResize s w) := by
  by_cases hwm : s.wasMobile = true <;> by_cases hnow : isMobile w = true
  · -- stays mobile: no branch runs, and no timer can be alive
    have hnone : s.carouselIntervalId = none := by
      rcases ho : s.carouselIntervalId with _ | tid
      · rfl
      · have hcond := h (by simp [ho])
        rw [hmt, hcond.1] at hwm
        cases hwm
    rw [handleResize_same_mode s w (by rw [hwm, hnow])]
    exact runningInv_of_none _ (by simpa using hnone)
  · -- mobile to desktop
    have hnow' : isMobile w = false := by simpa using hnow
    have hnone : s.carouselIntervalId = none := by
      rcases ho : s.carouselIntervalId with _ | tid
      · rfl
      · have hcond := h (by simp [ho])
        rw [hmt, hcond.1] at hwm
        cases hwm
    rw [handleResize_mobile_to_desktop s w hwm hnow']
    exact runningInv_irrel_wasMobile _ _
      (resizeToDesktopBranch_runningInv _ (by simpa using hnone))
  · -- desktop to mobile
    have hwm' : s.wasMobile = false := by simpa using hwm
    rw [handleResize_desktop_to_mobile s w hwm' hnow]
    exact runningInv_irrel_wasMobile _ _
      (runningInv_of_none _ (resizeToMobileBranch_carouselIntervalId _))
  · -- stays desktop
    have hwm' : s.wasMobile = false := by simpa using hwm
    have hnow' : isMobile w = false := by simpa using hnow
    rw [handleResize_same_mode s w (by rw [hwm', hnow'])]
    intro hsome
    have hcond := h (by simpa using hsome)
    exact ⟨by simpa using hnow', by simpa using hcond.2.1, by simpa using hcond.2.2⟩

lemma handleResize_pausedDead (s : EngineState) (w : Nat) (h : pausedDead s)
    (hnc : ¬(s.wasMobile = true ∧ isMobile w = false)) :
    pausedDead (handleResize s w) := by
  obtain ⟨hp, hnone⟩ := h
  by_cases hwm : s.wasMobile = true <;> by_cases hnow : isMobile w = true
  · rw [handleResize_same_mode s w (by rw [hwm, hnow])]
    exact ⟨by simpa using hp, by simpa using hnone⟩
  · exact absurd ⟨hwm, by simpa using hnow⟩ hnc
  · have hwm' : s.wasMobile = false := by simpa using hwm
    rw [handleResize_desktop_to_mobile s w hwm' hnow]
    constructor
    · simp [hp]
    · simp
  · have hwm' : s.wasMobile = false := by simpa using hwm
    have hnow' : isMobile w = false := by simpa using hnow
    rw [handleResize_same_mode s w (by rw [hwm', hnow'])]
    exact ⟨by simpa using hp, by simpa using hnone⟩

lemma wf_irrel_wasMobile (t : EngineState) (b : Bool) (h : timersWellFormed t) :
    timersWellFormed { t with wasMobile := b } := by
  unfold timersWellFormed at h ⊢
  simpa using h

lemma handleResize_wf (s : EngineState) (w : Nat) (h : timersWellFormed s) :
    timersWellFormed (handleResize s w) := by
  have hw : timersWellFormed { s with width := w } := by
    unfold timersWellFormed at h ⊢
    simpa using h
  by_cases hwm : s.wasMobile = true <;> by_cases hnow : isMobile w = true
  · rw [handleResize_same_mode s w (by rw [hwm, hnow])]
    unfold timersWellFormed at h ⊢
    simpa using h
  · have hnow' : isMobile w = false := by simpa using hnow
    rw [handleResize_mobile_to_desktop s w hwm hnow']
    exact wf_irrel_wasMobile _ _ (resizeToDesktopBranch_wf _ hw)
  · have hwm' : s.wasMobile = false := by simpa using hwm
    rw [handleResize_desktop_to_mobile s w hwm' hnow]
    exact wf_irrel_wasMobile _ _ (resizeToMobileBranch_wf _ hw)
  · have hwm' : s.wasMobile = false := by simpa using hwm
    have hnow' : isMobile w = false := by simpa using hnow
    rw [handleResize_same_mode s w (by rw [hwm', hnow'])]
    unfold timersWellFormed at h ⊢
    simpa using h

lemma carouselTick_wf (s : EngineState) (h : timersWellFormed s) :
    timersWellFormed (carouselTick s) := by
  unfold carouselTick
  split_ifs with hg
  · exact stopCarousel_wf s h
  · dsimp only
    unfold timersWellFormed at h ⊢
    split <;> simpa using h

lemma selectEntry_wf (s : EngineState) (i : Nat) (u : Bool) (h : timersWellFormed s) :
    timersWellFormed (selectEntry s i u) := by
  unfold selectEntry
  split
  · exact h
  · dsimp only
    by_cases hm : isMobile s.width = true
    · rw [if_pos hm]
      split_ifs
      · unfold timersWellFormed at h ⊢
        rcases openMobileModal_cases s _ with h2 | ⟨m, h2⟩ <;> rw [h2] <;> simpa using h
      · exact h
    · rw [if_neg hm]
      cases u with
      | false =>
        rw [if_neg (by simp : ¬(false = true))]
        unfold timersWellFormed at h ⊢
        split <;> simpa using h
      | true =>
        rw [if_pos rfl]
        apply pauseCarousel_wf
        unfold timersWellFormed at h ⊢
        split <;> simpa using h

/-! Step-level preservation. -/

lemma step_preserves_modeTracked (e : Event) (s : EngineState) (h : modeTracked s) :
    modeTracked (step e s) := by
  cases e with
  | tick =>
    unfold step
    split_ifs
    · unfold modeTracked at h ⊢
      simp [h]
    · exact h
  | select i u =>
    unfold step modeTracked at *
    simp [h]
  | callStart =>
    unfold step modeTracked at *
    simp [h]
  | resize w =>
    unfold step modeTracked at *
    simp
  | fadeFire =>
    unfold step modeTracked at *
    simp [h]

lemma step_preserves_runningInv (e : Event) (s : EngineState)
    (hmt : modeTracked s) (h : runningOnlyWhenAllowed s) :
    runningOnlyWhenAllowed (step e s) := by
  cases e with
  | tick =>
    unfold step
    split_ifs with hs
    · by_cases hg : (isMobile s.width || s.carouselPaused) = true
      · rw [carouselTick_stopped s hg]
        exact runningInv_of_none _ (stopCarousel_carouselIntervalId s)
      · intro _
        have hcond := h hs
        refine ⟨by simpa using hcond.1, by simpa using hcond.2.1, ?_⟩
        intro hnil
        have hlen := carouselTick_entries_length s
        rw [hnil] at hlen
        exact hcond.2.2 (List.length_eq_zero.mp hlen.symm)
    · exact h
  | select i u =>
    unfold step
    rcases selectEntry_timer_cases s i u with ⟨hi', hp', _⟩ | hi'
    · intro hsome
      rw [hi'] at hsome
      have hcond := h hsome
      refine ⟨by simpa using hcond.1, ?_, ?_⟩
      · rw [hp']
        exact hcond.2.1
      · intro hnil
        have hlen := selectEntry_entries_length s i u
        rw [hnil] at hlen
        exact hcond.2.2 (List.length_eq_zero.mp hlen.symm)
    · exact runningInv_of_none _ hi'
  | callStart => exact startCarousel_preserves_runningInv s h
  | resize w => exact handleResize_preserves_runningInv s w hmt h
  | fadeFire =>
    unfold step
    intro hsome
    have hcond := h (by simpa using hsome)
    exact ⟨by simpa using hcond.1, by simpa using hcond.2.1, by simpa using hcond.2.2⟩

lemma step_preserves_wf (e : Event) (s : EngineState) (h : timersWellFormed s) :
    timersWellFormed (step e s) := by
  cases e with
  | tick =>
    unfold step
    split_ifs
    · exact carouselTick_wf s h
    · exact h
  | select i u => exact selectEntry_wf s i u h
  | callStart => exact startCarousel_wf s h
  | resize w => exact handleResize_wf s w h
  | fadeFire =>
    unfold step timersWellFormed at *
    simpa using h

/-! Claims C1, C3 and C7. -/

/-- A concrete engine state with a single entry on a desktop viewport,
carousel not paused, showcase present, no timer yet. -/
def c1OneEntryState : EngineState :=
  { width := 1024
    entries := [⟨some "solo", true⟩]
    showcase := some ⟨some "solo", true, false, none⟩
    mobileShowcase := some none
    modalPresent := true
    modalActive := false
    bodyScrollLocked := false
    progressOuterPresent := true
    progressInnerPresent := true
    progressRunning := false
    progressPaused := false
    carouselIntervalId := none
    liveTimers := []
    nextTimerId := 0
    carouselPaused := false
    wasMobile := false }

/-- Counterexample to C1 as stated: on a desktop, unpaused state whose entry
list has exactly one element, `startCarousel` does install an interval
timer, so the carousel runs with an entry count not exceeding one. -/
theorem startCarousel_one_entry_starts_timer :
    c1OneEntryState.entries.length = 1 ∧
    isMobile c1OneEntryState.width = false ∧
    c1OneEntryState.carouselPaused = false ∧
    (startCarousel c1OneEntryState).carouselIntervalId.isSome = true := by
  decide

/-- C1 (amended): a live interval timer exists only in Desktop mode with the
user-pause flag clear and a non-empty entry list — this is preserved by
every engine event — and every call to `startCarousel` under Mobile mode,
`userPaused = true`, or an empty entry list leaves the state unchanged, so
no timer is started.  (The source guards on `entries.length === 0`, not on
an entry count of at most one.) -/
theorem carousel_runs_only_desktop_unpaused_nonempty :
    (∀ s : EngineState,
      isMobile s.width = true ∨ s.carouselPaused = true ∨ s.entries = [] →
        startCarousel s = s) ∧
    (∀ (e : Event) (s : EngineState), modeTracked s → runningOnlyWhenAllowed s →
      modeTracked (step e s) ∧ runningOnlyWhenAllowed (step e s)) :=
  ⟨startCarousel_guard,
   fun e s hmt h =>
     ⟨step_preserves_modeTracked e s hmt, step_preserves_runningInv e s hmt h⟩⟩

/-- A concrete mobile-viewport engine state. -/
def c1MobileState : EngineState :=
  { width := 500
    entries := [⟨some "a", true⟩, ⟨some "b", false⟩]
    showcase := some ⟨some "a", true, false, none⟩
    mobileShowcase := some none
    modalPresent := true
    modalActive := false
    bodyScrollLocked := false
    progressOuterPresent := true
    progressInnerPresent := true
    progressRunning := false
    progressPaused := false
    carouselIntervalId := none
    liveTimers := []
    nextTimerId := 3
    carouselPaused := false
    wasMobile := true }

/-- A concrete desktop engine state with a running timer satisfying the
carousel invariants. -/
def c1DesktopState : EngineState :=
  { width := 1200
    entries := [⟨some "a", true⟩, ⟨some "b", false⟩]
    showcase := some ⟨some "a", true, false, none⟩
    mobileShowcase := some none
    modalPresent := true
    modalActive := false
    bodyScrollLocked := false
    progressOuterPresent := true
    progressInnerPresent := true
    progressRunning := true
    progressPaused := false
    carouselIntervalId := some 4
    liveTimers := [4]
    nextTimerId := 5
    carouselPaused := false
    wasMobile := false }

/-- Witness for the amended C1: `startCarousel` on a mobile state is the
identity, and a tick on a desktop running state preserves the invariant. -/
theorem carousel_runs_only_desktop_unpaused_nonempty_witness :
    startCarousel c1MobileState = c1MobileState ∧
    (modeTracked (step Event.tick c1DesktopState) ∧
      runningOnlyWhenAllowed (step Event.tick c1DesktopState)) :=
  ⟨carousel_runs_only_desktop_unpaused_nonempty.1 c1MobileState (Or.inl (by decide)),
   carousel_runs_only_desktop_unpaused_nonempty.2 Event.tick c1DesktopState
     (by decide) (by decide)⟩

/-- C3: a user-initiated `selectEntry` in Desktop mode leaves the engine
user-paused with no live timer, and this state is preserved by every
subsequent event — tick, selection, `startCarousel` call, fade timeout, or
resize — except a resize that crosses from Mobile to Desktop. -/
theorem userSelect_pauses_carousel_permanently :
    (∀ (s : EngineState) (i : Nat),
      isMobile s.width = false → i < s.entries.length →
        pausedDead (selectEntry s i true)) ∧
    (∀ (e : Event) (s : EngineState), pausedDead s →
      (∀ w, e = Event.resize w → ¬(s.wasMobile = true ∧ isMobile w = false)) →
      pausedDead (step e s)) := by
  constructor
  · exact fun s i hm hi => selectEntry_user_desktop s i hm hi
  · intro e s h hnc
    cases e with
    | tick =>
      have hs : step Event.tick s = s := by
        unfold step
        rw [h.2]
        simp
      rw [hs]
      exact h
    | select i u =>
      unfold step
      refine ⟨selectEntry_paused_mono s i u h.1, ?_⟩
      rcases selectEntry_timer_cases s i u with ⟨hi', _, _⟩ | hi'
      · rw [hi']
        exact h.2
      · exact hi'
    | callStart =>
      have hs : step Event.callStart s = s := startCarousel_guard s (Or.inr (Or.inl h.1))
      rw [hs]
      exact h
    | resize w => exact handleResize_pausedDead s w h (hnc w rfl)
    | fadeFire =>
      unfold step
      exact ⟨by simpa using h.1, by simpa using h.2⟩

/-- A concrete desktop state with a running carousel for the C3 witness. -/
def c3State : EngineState :=
  { width := 1100
    entries := [⟨some "a", true⟩, ⟨some "b", false⟩, ⟨some "c", false⟩]
    showcase := some ⟨some "a", true, false, none⟩
    mobileShowcase := some none
    modalPresent := true
    modalActive := false
    bodyScrollLocked := false
    progressOuterPresent := true
    progressInnerPresent := true
    progressRunning := true
    progressPaused := false
    carouselIntervalId := some 9
    liveTimers := [9]
    nextTimerId := 10
    carouselPaused := false
    wasMobile := false }

/-- Witness for C3: a user click on entry 1 of the concrete desktop state
pauses the carousel for good, and a subsequent `startCarousel` call does not
revive it. -/
theorem userSelect_pauses_carousel_permanently_witness :
    pausedDead (selectEntry c3State 1 true) ∧
    pausedDead (step Event.callStart (selectEntry c3State 1 true)) :=
  ⟨userSelect_pauses_carousel_permanently.1 c3State 1 (by decide) (by decide),
   userSelect_pauses_carousel_permanently.2 Event.callStart (selectEntry c3State 1 true)
     (by decide) (fun w hw => nomatch hw)⟩

/-- C7: the recorded interval handle and the set of live timers stay in
sync under every event, so at most one carousel interval timer is alive at
any instant (in particular a `startCarousel` call cancels the previous timer
when creating a new one), and a tick that fires on Mobile or while
user-paused performs no advancement and cancels its own timer. -/
theorem at_most_one_carousel_timer (s : EngineState) (e : Event)
    (h : timersWellFormed s) :
    timersWellFormed (step e s) ∧ (step e s).liveTimers.length ≤ 1 ∧
    ((isMobile s.width || s.carouselPaused) = true →
      (carouselTick s).entries = s.entries ∧
      (carouselTick s).carouselIntervalId = none ∧
      (carouselTick s).liveTimers = []) := by
  have hw := step_preserves_wf e s h
  refine ⟨hw, ?_, ?_⟩
  · rw [hw]
    rcases h2 : (step e s).carouselIntervalId with _ | t <;> simp
  · intro hg
    rw [carouselTick_stopped s hg]
    exact ⟨stopCarousel_entries s, stopCarousel_carouselIntervalId s,
      stopCarousel_liveTimers_of_wf s h⟩

/-- A concrete desktop state with a live timer for the C7 witness. -/
def c7State : EngineState :=
  { width := 1400
    entries := [⟨some "a", true⟩, ⟨some "b", false⟩]
    showcase := some ⟨some "a", true, false, none⟩
    mobileShowcase := some none
    modalPresent := true
    modalActive := false
    bodyScrollLocked := false
    progressOuterPresent := true
    progressInnerPresent := true
    progressRunning := true
    progressPaused := false
    carouselIntervalId := some 2
    liveTimers := [2]
    nextTimerId := 3
    carouselPaused := false
    wasMobile := false }

/-- Witness for C7: a `startCarousel` call on the concrete running state
keeps the timer set well-formed with at most one live timer. -/
theorem at_most_one_carousel_timer_witness :
    timersWellFormed (step Event.callStart c7State) ∧
    (step Event.callStart c7State).liveTimers.length ≤ 1 ∧
    ((isMobile c7State.width || c7State.carouselPaused) = true →
      (carouselTick c7State).entries = c7State.entries ∧
      (carouselTick c7State).carouselIntervalId = none ∧
      (carouselTick c7State).liveTimers = []) :=
  at_most_one_carousel_timer c7State Event.callStart (by decide)

/-! Claim C6: the fade-switch timing. -/

/-- C6: on a non-default selection change with the fade transition, the
wrapper starts fading and the image swap is scheduled `FADE_SWAP_MS` = 250
milliseconds in; the fade-out half lasts `CSS_FADE_HALF_MS` = 250 ms, the
total fade-switch duration is 500 ms, and the swap sits exactly at the
temporal midpoint of the total transition. -/
theorem fade_switch_swaps_at_midpoint (s : EngineState) (sc : Showcase) (img : String)
    (hsc : s.showcase = some sc) (hwrap : sc.wrapperPresent = true) (himg : img ≠ "") :
    (updateImageVisibility s (some img) false).showcase =
      some { sc with fading := true, pendingSwap := some (img, FADE_SWAP_MS) } ∧
    CSS_FADE_HALF_MS = 250 ∧ FADE_SWAP_MS = 250 ∧ fadeTotalMs = 500 ∧
    2 * FADE_SWAP_MS = fadeTotalMs := by
  refine ⟨?_, rfl, rfl, rfl, rfl⟩
  unfold updateImageVisibility
  rw [hsc]
  dsimp only
  rw [if_neg himg, if_neg (by simp [hwrap]), if_neg (by simp)]

/-- A concrete engine state with a showcase and wrapper for the C6
witness. -/
def c6State : EngineState :=
  { width := 1024
    entries := [⟨some "a", true⟩, ⟨some "x", false⟩]
    showcase := some ⟨some "a", true, false, none⟩
    mobileShowcase := some none
    modalPresent := true
    modalActive := false
    bodyScrollLocked := false
    progressOuterPresent := true
    progressInnerPresent := true
    progressRunning := true
    progressPaused := false
    carouselIntervalId := some 1
    liveTimers := [1]
    nextTimerId := 2
    carouselPaused := false
    wasMobile := false }

/-- Witness for C6 at a concrete fade switch to image `"x"`. -/
theorem fade_switch_swaps_at_midpoint_witness :
    (updateImageVisibility c6State (some "x") false).showcase =
      some { dataSelected := some "a", wrapperPresent := true, fading := true,
             pendingSwap := some ("x", FADE_SWAP_MS) } ∧
    CSS_FADE_HALF_MS = 250 ∧ FADE_SWAP_MS = 250 ∧ fadeTotalMs = 500 ∧
    2 * FADE_SWAP_MS = fadeTotalMs :=
  fade_switch_swaps_at_midpoint c6State ⟨some "a", true, false, none⟩ "x" rfl rfl
    (by decide)

/-! Claims C4 and C5: the resize reconciliation. -/

lemma findEntryIdxByImage_clearSelected (l : List Entry) (img : String) :
    findEntryIdxByImage (clearSelected l) img = findEntryIdxByImage l img := by
  unfold findEntryIdxByImage clearSelected
  rw [List.findIdx?_map]
  rfl

lemma findIdx?_some_lt {p : Entry → Bool} {l : List Entry} {j : Nat}
    (h : l.findIdx? p = some j) : j < l.length := by
  induction l generalizing j with
  | nil => simp [List.findIdx?_nil] at h
  | cons a t ih =>
    rw [List.findIdx?_cons] at h
    split_ifs at h with hp
    · simp at h
      simp
      omega
    · rw [List.findIdx?_start_succ] at h
      rcases ho : t.findIdx? p with _ | k
      · rw [ho] at h
        simp at h
      · rw [ho] at h
        simp at h
        have := ih ho
        simp
        omega

lemma carryModalSelectionToDesktop_spec (s : EngineState) (sc : Showcase)
    (img : String) (j : Nat)
    (hmp : s.modalPresent = true)
    (hms : s.mobileShowcase = some (some img)) (himg : img ≠ "")
    (hsc : s.showcase = some sc) (hwrap : sc.wrapperPresent = true)
    (hfind : findEntryIdxByImage s.entries img = some j) :
    carryModalSelectionToDesktop s =
      { s with
        modalActive := false
        bodyScrollLocked := false
        entries := setSelectedAt (clearSelected s.entries) j
        showcase := some { sc with dataSelected := some img } } := by
  unfold carryModalSelectionToDesktop
  rw [hms]
  dsimp only
  rw [if_neg himg]
  unfold closeMobileModal
  rw [if_neg (by simp [hmp])]
  dsimp only
  rw [show findEntryIdxByImage (clearSelected s.entries) img = some j from
    (findEntryIdxByImage_clearSelected s.entries img).trans hfind]
  dsimp only
  unfold updateImageVisibility
  rw [show ({ s with
        modalActive := false, bodyScrollLocked := false,
        entries := setSelectedAt (clearSelected s.entries) j } : EngineState).showcase
      = some sc from hsc]
  dsimp only
  rw [if_neg himg, if_neg (by simp [hwrap]), if_pos rfl]
  rw [hms]

/-- C4: a resize crossing from Mobile to Desktop while the modal is open
closes the modal, moves the `selected` class to the (first) entry mapped to
the modal's displayed image, sets the showcase image immediately — leaving
the fading flag and any pending swap of the showcase untouched, so no fade
transition is replayed — clears the user-pause flag, and starts the
carousel timer. -/
theorem resize_to_desktop_carries_modal_selection (s : EngineState) (w : Nat)
    (sc : Showcase) (img : String) (j : Nat)
    (hwm : s.wasMobile = true) (hw : isMobile w = false)
    (hmp : s.modalPresent = true) (hma : s.modalActive = true)
    (hms : s.mobileShowcase = some (some img)) (himg : img ≠ "")
    (hsc : s.showcase = some sc) (hwrap : sc.wrapperPresent = true)
    (hfind : findEntryIdxByImage s.entries img = some j) :
    (handleResize s w).modalActive = false ∧
    onlySelectedAt (handleResize s w).entries j ∧
    (handleResize s w).showcase = some { sc with dataSelected := some img } ∧
    (handleResize s w).carouselPaused = false ∧
    (handleResize s w).carouselIntervalId.isSome = true := by
  have hj : j < s.entries.length := by
    unfold findEntryIdxByImage at hfind
    exact findIdx?_some_lt hfind
  rw [handleResize_mobile_to_desktop s w hwm hw]
  unfold resizeToDesktopBranch
  dsimp only
  rw [if_pos (by simp [hmp, hma])]
  rw [carryModalSelectionToDesktop_spec { s with width := w } sc img j
    (by simpa using hmp) (by simpa using hms) himg (by simpa using hsc) hwrap
    (by simpa using hfind)]
  dsimp only
  refine ⟨by simp, ?_, by simp, by simp, ?_⟩
  · have hsel := onlySelectedAt_setSelectedAt_clearSelected s.entries j hj
    simpa using hsel
  · dsimp only
    apply startCarousel_isSome_of
    · simpa using hw
    · intro hnil
      have h0 : s.entries.length = 0 := by
        simpa using congrArg List.length hnil
      omega
    · simp
    · simp

/-- A concrete mobile state with the modal open on image `"e"` for the C4
witness. -/
def c4State : EngineState :=
  { width := 500
    entries := [⟨some "d", true⟩, ⟨some "e", false⟩]
    showcase := some ⟨some "d", true, false, none⟩
    mobileShowcase := some (some "e")
    modalPresent := true
    modalActive := true
    bodyScrollLocked := true
    progressOuterPresent := true
    progressInnerPresent := true
    progressRunning := false
    progressPaused := true
    carouselIntervalId := none
    liveTimers := []
    nextTimerId := 6
    carouselPaused := true
    wasMobile := true }

/-- Witness for C4: resizing the concrete modal-open mobile state to width
1024 closes the modal, selects the entry mapped to `"e"`, sets the showcase
image immediately, clears the pause flag and starts the timer. -/
theorem resize_to_desktop_carries_modal_selection_witness :
    (handleResize c4State 1024).modalActive = false ∧
    onlySelectedAt (handleResize c4State 1024).entries 1 ∧
    (handleResize c4State 1024).showcase =
      some { dataSelected := some "e", wrapperPresent := true, fading := false,
             pendingSwap := none } ∧
    (handleResize c4State 1024).carouselPaused = false ∧
    (handleResize c4State 1024).carouselIntervalId.isSome = true :=
  resize_to_desktop_carries_modal_selection c4State 1024
    ⟨some "d", true, false, none⟩ "e" 1 rfl (by decide) rfl rfl rfl (by decide)
    rfl rfl (by decide)

/-- C5: a resize crossing from Desktop to Mobile clears the carousel
interval (leaving no live timer), pauses the progress indicator, seeds the
mobile showcase with the image id of the selected desktop entry, and leaves
the modal closed. -/
theorem resize_to_mobile_stops_and_seeds (s : EngineState) (w : Nat)
    (e : Entry) (img : String)
    (hwm : s.wasMobile = false) (hw : isMobile w = true)
    (hwf : timersWellFormed s)
    (hsel : findFirstSelected s.entries = some e) (he : e.image = some img)
    (himg : img ≠ "")
    (hms : s.mobileShowcase.isSome = true)
    (hpo : s.progressOuterPresent = true)
    (hmod : s.modalActive = false) :
    (handleResize s w).carouselIntervalId = none ∧
    (handleResize s w).liveTimers = [] ∧
    (handleResize s w).progressRunning = false ∧
    (handleResize s w).progressPaused = true ∧
    (handleResize s w).mobileShowcase = some (some img) ∧
    (handleResize s w).modalActive = false := by
  have hwf' : timersWellFormed ({ s with width := w } : EngineState) := by
    unfold timersWellFormed at hwf ⊢
    simpa using hwf
  rw [handleResize_desktop_to_mobile s w hwm hw]
  unfold resizeToMobileBranch
  dsimp only
  rw [show findFirstSelected
      (pauseProgressBar (stopCarousel ({ s with width := w } : EngineState))).entries
      = some e from by simpa using hsel]
  dsimp only
  rw [he]
  dsimp only
  rw [if_neg himg]
  obtain ⟨old, hold⟩ := Option.isSome_iff_exists.mp hms
  rw [show (pauseProgressBar
      (stopCarousel ({ s with width := w } : EngineState))).mobileShowcase
      = some old from by simpa using hold]
  dsimp only
  have hpp := pauseProgressBar_paused_of_present
    (stopCarousel ({ s with width := w } : EngineState)) (by simpa using hpo)
  refine ⟨by simp, ?_, ?_, ?_, by simp, by simpa using hmod⟩
  · simp [stopCarousel_liveTimers_of_wf _ hwf']
  · simp [hpp.1]
  · simp [hpp.2]

/-- A concrete desktop state with entry `"d"` selected and a running
carousel for the C5 witness. -/
def c5State : EngineState :=
  { width := 1024
    entries := [⟨some "c", false⟩, ⟨some "d", true⟩]
    showcase := some ⟨some "d", true, false, none⟩
    mobileShowcase := some none
    modalPresent := true
    modalActive := false
    bodyScrollLocked := false
    progressOuterPresent := true
    progressInnerPresent := true
    progressRunning := true
    progressPaused := false
    carouselIntervalId := some 5
    liveTimers := [5]
    nextTimerId := 6
    carouselPaused := false
    wasMobile := false }

/-- Witness for C5: resizing the concrete desktop state to width 500 stops
the timer and the progress bar, seeds the mobile showcase with `"d"`, and
leaves the modal closed. -/
theorem resize_to_mobile_stops_and_seeds_witness :
    (handleResize c5State 500).carouselIntervalId = none ∧
    (handleResize c5State 500).liveTimers = [] ∧
    (handleResize c5State 500).progressRunning = false ∧
    (handleResize c5State 500).progressPaused = true ∧
    (handleResize c5State 500).mobileShowcase = some (some "d") ∧
    (handleResize c5State 500).modalActive = false :=
  resize_to_mobile_stops_and_seeds c5State 500 ⟨some "d", true⟩ "d" rfl (by decide)
    (by decide) rfl rfl (by decide) rfl rfl rfl

end Portfolio
